import Mathlib

/-!
# FoodRush backend — shallow embedding

Lean model of the order/delivery/review flow of the FoodRush Express
backend (controllers `orderController`, `deliveryPartnerController`,
`reviewController` and the mongoose schemas `Order`, `MenuItem`,
`Restaurant`, `User`, `DeliveryPartner`, `Review`).

Money amounts are rationals; JavaScript `Math.round` is `jsRound`
(floor of x + 1/2).  Fallible request handlers become
`Except String`-valued functions: an `error` reply corresponds to the
early `return res.status(4xx)` paths, in which case no document is
saved and the stored state is unchanged.
-/

namespace FoodRush

/-- JavaScript `Math.round`: round half toward positive infinity. -/
def jsRound (q : ℚ) : ℤ := Rat.floor (q + 1/2)

/-- JavaScript `a || b` on an optional number: `a` unless it is absent
or `0` (falsy), else `b`. -/
def jsOrQ (a : Option ℚ) (b : ℚ) : ℚ :=
  match a with
  | some x => if x = 0 then b else x
  | none => b

/-- `orderStatus` enum of the `Order` schema. -/
inductive OrderStatus
  | pending
  | confirmed
  | preparing
  | ready_for_pickup
  | out_for_delivery
  | delivered
  | cancelled
  | refunded
deriving DecidableEq, Repr

/-- `role` enum of the `User` schema. -/
inductive Role
  | customer
  | restaurant_owner
  | admin
deriving DecidableEq, Repr

/-- The raw role string stored in a `User` document. -/
def roleString : Role → String
  | .customer => "customer"
  | .restaurant_owner => "restaurant_owner"
  | .admin => "admin"

/-- The authenticated requester (`req.user`). -/
structure UserCtx where
  id : Nat
  role : Role
deriving DecidableEq, Repr

/-- `validTransitions` table of `updateOrderStatus`. -/
def validTransitions : OrderStatus → List OrderStatus
  | .pending => [.confirmed, .cancelled]
  | .confirmed => [.preparing, .cancelled]
  | .preparing => [.ready_for_pickup, .cancelled]
  | .ready_for_pickup => [.out_for_delivery, .cancelled]
  | .out_for_delivery => [.delivered, .cancelled]
  | .delivered => []
  | .cancelled => []
  | .refunded => []

/-- `cancellableStatuses` of `cancelOrder`. -/
def cancellableStatuses : List OrderStatus := [.pending, .confirmed, .preparing]

/-- The `cancellationDetails.cancelledBy` enum of the `Order` schema. -/
def cancelledByEnum : List String := ["customer", "restaurant", "admin", "system"]

/-- The `otp` subdocument of an order. -/
structure Otp where
  code : String
  expiresAt : ℤ
deriving DecidableEq, Repr

/-- The `cancellationDetails` subdocument of an order. -/
structure CancellationDetails where
  reason : String
  cancelledBy : String
  refundAmount : ℚ
  refundStatus : String
deriving DecidableEq, Repr

/-- The fields of an `Order` document used by the modelled handlers.
`restaurantOwner` and `deliveryPartnerUser` stand for the populated
`order.restaurant.owner` and `order.deliveryPartner.user` references. -/
structure Order where
  id : Nat
  customer : Nat
  restaurantOwner : Nat
  deliveryPartner : Option Nat
  deliveryPartnerUser : Option Nat
  orderStatus : OrderStatus
  pricingTotal : ℚ
  cancellationReason : Option String
  cancellationDetails : Option CancellationDetails
  actualDeliveryTime : Option ℤ
  otp : Option Otp
deriving DecidableEq, Repr

/-- Mongoose validation run by `order.save()`, restricted to the one
constraint the claims touch: `cancellationDetails.cancelledBy` must lie
in the schema enum. -/
def validateOrder (o : Order) : Bool :=
  match o.cancellationDetails with
  | none => true
  | some cd => cancelledByEnum.contains cd.cancelledBy

/-- The `canUpdate` permission predicate of `updateOrderStatus`. -/
def canUpdateStatus (u : UserCtx) (status : OrderStatus) (o : Order) : Bool :=
  u.role = Role.admin || o.restaurantOwner = u.id ||
    o.deliveryPartnerUser = some u.id ||
    (status = OrderStatus.cancelled && o.customer = u.id)

/-- The mutations `updateOrderStatus` performs on the in-memory
document before saving: set the status, record cancellation details on
a cancellation (with `cancelledBy` the caller's raw role string), and
stamp `actualDeliveryTime` on a delivery. -/
def applyStatusChange (u : UserCtx) (status : OrderStatus) (reason : Option String)
    (now : ℤ) (o : Order) : Order :=
  if status = OrderStatus.cancelled then
    { o with
      orderStatus := status
      cancellationReason := some "customer_request"
      cancellationDetails := some
        { reason := reason.getD "No reason provided"
          cancelledBy := roleString u.role
          refundAmount := o.pricingTotal
          refundStatus := "pending" } }
  else if status = OrderStatus.delivered then
    { o with orderStatus := status, actualDeliveryTime := some now }
  else { o with orderStatus := status }

/-- `updateOrderStatus` (orderController): permission check, transition
table check, mutation, then save (with schema validation). -/
def updateOrderStatus (u : UserCtx) (status : OrderStatus) (reason : Option String)
    (now : ℤ) (o : Order) : Except String Order :=
  if !canUpdateStatus u status o then .error "Access denied"
  else if !((validTransitions o.orderStatus).contains status) then
    .error "Cannot change status"
  else if validateOrder (applyStatusChange u status reason now o) then
    .ok (applyStatusChange u status reason now o)
  else .error "Order validation failed"

/-- The cancelled document `cancelOrder` builds before saving. -/
def applyCancellation (reason : Option String) (o : Order) : Order :=
  { o with
    orderStatus := OrderStatus.cancelled
    cancellationReason := some "customer_request"
    cancellationDetails := some
      { reason := reason.getD "Customer requested cancellation"
        cancelledBy := "customer"
        refundAmount := o.pricingTotal
        refundStatus := "pending" } }

/-- `cancelOrder` (orderController). -/
def cancelOrder (u : UserCtx) (reason : Option String) (o : Order) :
    Except String Order :=
  if !(o.customer = u.id || u.role = Role.admin) then .error "Access denied"
  else if !(cancellableStatuses.contains o.orderStatus) then
    .error "Order cannot be cancelled at this stage"
  else if validateOrder (applyCancellation reason o) then
    .ok (applyCancellation reason o)
  else .error "Order validation failed"

/-- `verifyDeliveryOTP` (orderController): on a matching, unexpired code
set the order delivered, record the delivery time and drop the OTP;
otherwise reply with an error and save nothing. -/
def verifyDeliveryOTP (supplied : String) (now : ℤ) (o : Order) :
    Except String Order :=
  match o.otp with
  | none => .error "Invalid or expired OTP"
  | some t =>
    if supplied ≠ t.code ∨ now > t.expiresAt then .error "Invalid or expired OTP"
    else
      .ok { o with
        orderStatus := OrderStatus.delivered
        actualDeliveryTime := some now
        otp := none }

/-- The fields of a `DeliveryPartner` document used by the modelled
handlers. `completionRate` is the schema field recomputed by the
document's first pre-save hook. -/
structure Partner where
  id : Nat
  user : Nat
  isOnline : Bool
  isApproved : Bool
  currentOrder : Option Nat
  totalOrders : Nat
  completedOrders : Nat
  completionRate : ℤ
deriving DecidableEq, Repr

/-- `deliveryPartnerSchema.pre(save)`: recompute `completionRate` as
`Math.round(completedOrders / totalOrders * 100)` when `totalOrders`
is positive. -/
def partnerPreSave (p : Partner) : Partner :=
  if p.totalOrders > 0 then
    { p with completionRate :=
        jsRound ((p.completedOrders : ℚ) / (p.totalOrders : ℚ) * 100) }
  else p

/-- `acceptOrder` (deliveryPartnerController): the requesting partner
must be online with no current order; the order must be ready for
pickup with no delivery partner.  On success both documents are saved:
the order gets the partner and moves to `out_for_delivery`, the partner
gets `currentOrder` and an incremented `totalOrders` (running its
pre-save hook). -/
def acceptOrder (p : Partner) (o : Order) : Except String (Order × Partner) :=
  if !p.isOnline then .error "You must be online to accept orders"
  else if p.currentOrder.isSome then .error "You already have an active order"
  else if o.orderStatus ≠ OrderStatus.ready_for_pickup ∨ o.deliveryPartner.isSome then
    .error "Order not available for pickup"
  else
    .ok
      ({ o with
          deliveryPartner := some p.id
          deliveryPartnerUser := some p.user
          orderStatus := OrderStatus.out_for_delivery },
        partnerPreSave
          { p with currentOrder := some o.id, totalOrders := p.totalOrders + 1 })

/-- `assignDeliveryPartner` (orderController): only the restaurant
owner or an admin; the candidate partner must exist and be online.
The handler sets `order.deliveryPartner` and saves the order only —
the partner document is not checked against an existing assignment of
the order and is not written at all. -/
def assignDeliveryPartner (u : UserCtx) (pOpt : Option Partner) (o : Order) :
    Except String Order :=
  if o.restaurantOwner ≠ u.id ∧ u.role ≠ Role.admin then .error "Access denied"
  else
    match pOpt with
    | none => .error "Delivery partner not available"
    | some p =>
      if !p.isOnline then .error "Delivery partner not available"
      else .ok { o with deliveryPartner := some p.id, deliveryPartnerUser := some p.user }

/-- `updateAvailability` (deliveryPartnerController), restricted to the
partner fields the claims mention: set `availability.isOnline` and save
(running the completion-rate pre-save hook). -/
def updateAvailability (b : Bool) (p : Partner) : Except String Partner :=
  if !p.isApproved then .error "Profile not approved yet"
  else .ok (partnerPreSave { p with isOnline := b })

/-- `updateApprovalStatus` (deliveryPartnerController): set
`verificationStatus.isApproved` and save. -/
def updateApprovalStatus (b : Bool) (p : Partner) : Partner :=
  partnerPreSave { p with isApproved := b }

/-- The request body of `updateMyProfile`, restricted to the partner
fields the claims concern.  `Object.assign` copies every key present
in the body, so each field is optional; `currentOrder := some none`
models an explicit `currentOrder: null`, and the statistics fields
model a `statistics` object in the body. -/
structure ProfileUpdateBody where
  currentOrder : Option (Option Nat)
  totalOrders : Option Nat
  completedOrders : Option Nat
deriving DecidableEq, Repr

/-- `updateMyProfile` (deliveryPartnerController): the unvalidated
profile route does `Object.assign(deliveryPartner, req.body)` and
saves, running the completion-rate pre-save hook.  Any partner field
present in the body — including `currentOrder` and `statistics` — is
overwritten. -/
def updateMyProfile (body : ProfileUpdateBody) (p : Partner) : Partner :=
  partnerPreSave
    { p with
      currentOrder := body.currentOrder.getD p.currentOrder
      totalOrders := body.totalOrders.getD p.totalOrders
      completedOrders := body.completedOrders.getD p.completedOrders }

/-- One write to a delivery-partner document by a delivery-flow
operation: accepting an order, toggling availability, admin approval,
and OTP delivery confirmation — `deliver` records that a successful
`verifyDeliveryOTP` saves only the order, leaving every partner
document exactly as it was.  The generic profile update, which
`Object.assign`s an arbitrary request body onto the partner, is
deliberately outside this relation and modelled separately as
`updateMyProfile`. -/
inductive PartnerStep : Partner → Partner → Prop where
  | accept {p p1 : Partner} {o o1 : Order}
      (h : acceptOrder p o = .ok (o1, p1)) : PartnerStep p p1
  | availability {p p1 : Partner} (b : Bool)
      (h : updateAvailability b p = .ok p1) : PartnerStep p p1
  | approval {p : Partner} (b : Bool) : PartnerStep p (updateApprovalStatus b p)
  | deliver {p : Partner} (supplied : String) (now : ℤ) (o : Order) :
      PartnerStep p p

/-- Reachability through any number of partner writes. -/
def PartnerReach : Partner → Partner → Prop :=
  Relation.ReflTransGen PartnerStep

/-- One size/price variant of a menu item (`menuItemSchema.variants`). -/
structure Variant where
  name : String
  price : ℚ
  discountedPrice : Option ℚ
  isAvailable : Bool
deriving DecidableEq, Repr

/-- One add-on of a menu item (`menuItemSchema.addOns`). -/
structure AddOn where
  name : String
  price : ℚ
  isAvailable : Bool
deriving DecidableEq, Repr

/-- A selected customization option of a cart line (from the request
body; `priceModifier` may be absent). -/
structure CustOption where
  name : String
  priceModifier : Option ℚ
deriving DecidableEq, Repr

/-- A customization group of a cart line (from the request body). -/
structure Customization where
  name : String
  selectedOptions : List CustOption
deriving DecidableEq, Repr

/-- The fields of a `MenuItem` document used by `createOrder`. -/
structure MenuItem where
  id : Nat
  name : String
  price : ℚ
  discountedPrice : Option ℚ
  isAvailable : Bool
  variants : List Variant
  addOns : List AddOn
deriving DecidableEq, Repr

/-- The variant reference of a cart line (`item.variant` of the request
body; only its `name` is consulted). -/
structure VariantSel where
  name : String
deriving DecidableEq, Repr

/-- The add-on reference of a cart line (matched by `name`). -/
structure AddOnSel where
  name : String
deriving DecidableEq, Repr

/-- One entry of `req.body.items` in `createOrder`. -/
structure CartLine where
  menuItem : Nat
  quantity : ℚ
  variant : Option VariantSel
  addOns : List AddOnSel
  customizations : List Customization
deriving DecidableEq, Repr

/-- The fields of a `Restaurant` document used by the modelled
handlers. -/
structure Restaurant where
  owner : Nat
  isActive : Bool
  minimumOrder : ℚ
  deliveryFee : ℚ
deriving DecidableEq, Repr

/-- An `Address` document: `findAddress` models
`Address.findOne({_id, user})`. -/
structure Address where
  id : Nat
  user : Nat
deriving DecidableEq, Repr

/-- `Address.findOne({ _id: aid, user: uid })`. -/
def findAddress (db : List Address) (aid uid : Nat) : Option Address :=
  db.find? (fun a => a.id == aid && a.user == uid)

/-- Unit price resolution of `createOrder`: start from the item's base
price; when a variant is named and found on the item, take
`variant.discountedPrice || variant.price`.  The item-level
`discountedPrice` is never consulted. -/
def resolvePrice (mi : MenuItem) (line : CartLine) : ℚ :=
  match line.variant with
  | none => mi.price
  | some vs =>
    match mi.variants.find? (fun v => v.name == vs.name) with
    | none => mi.price
    | some v => jsOrQ v.discountedPrice v.price

/-- Add-on charges of one cart line: each requested add-on that is
found on the item and available contributes `price * quantity`;
unknown or unavailable add-ons contribute nothing. -/
def lineAddOns (mi : MenuItem) (line : CartLine) : ℚ :=
  (line.addOns.map (fun a =>
    match mi.addOns.find? (fun m => m.name == a.name) with
    | some m => if m.isAvailable then m.price * line.quantity else 0
    | none => 0)).sum

/-- Customization charges of one cart line:
`(option.priceModifier || 0) * quantity` summed over all selected
options (the modifiers come from the request, unvalidated). -/
def lineCustomizations (line : CartLine) : ℚ :=
  (line.customizations.map (fun c =>
    (c.selectedOptions.map (fun opt => opt.priceModifier.getD 0 * line.quantity)).sum)).sum

/-- `itemTotal` of one cart line. -/
def lineTotal (mi : MenuItem) (line : CartLine) : ℚ :=
  resolvePrice mi line * line.quantity + lineAddOns mi line + lineCustomizations line

/-- One snapshotted entry of `order.items`. -/
structure OrderItem where
  menuItem : Nat
  name : String
  price : ℚ
  quantity : ℚ
  itemTotal : ℚ
deriving DecidableEq, Repr

/-- The snapshot `createOrder` pushes for one cart line. -/
def mkOrderItem (mi : MenuItem) (line : CartLine) : OrderItem :=
  { menuItem := mi.id
    name := mi.name
    price := resolvePrice mi line
    quantity := line.quantity
    itemTotal := lineTotal mi line }

/-- The item loop of `createOrder`: look up each cart line's menu item,
fail if it is missing or unavailable, otherwise snapshot it and
accumulate the subtotal. -/
def processItems (menu : List MenuItem) : List CartLine → Except String (List OrderItem × ℚ)
  | [] => .ok ([], 0)
  | line :: rest =>
    match menu.find? (fun m => m.id == line.menuItem) with
    | none => .error "Menu item not found is not available"
    | some mi =>
      if !mi.isAvailable then .error ("Menu item " ++ mi.name ++ " is not available")
      else
        match processItems menu rest with
        | .error e => .error e
        | .ok (its, st) => .ok (mkOrderItem mi line :: its, st + lineTotal mi line)

/-- The `pricing` subdocument of an order. -/
structure Pricing where
  subtotal : ℚ
  deliveryFee : ℚ
  cgst : ℚ
  sgst : ℚ
  igst : ℚ
  platformFee : ℚ
  packagingFee : ℚ
  total : ℚ
deriving DecidableEq, Repr

/-- The pricing block `createOrder` computes: delivery fee
`restaurant.deliveryFee || 0`, platform fee `Math.round(2% of
subtotal)`, packaging fee 10, and 5% GST split evenly —
`cgst = sgst = Math.round(subtotal*0.05/2*100)/100` — with `igst`
fixed at 0. -/
def orderPricing (r : Restaurant) (subtotal : ℚ) : Pricing :=
  { subtotal := subtotal
    deliveryFee := jsOrQ (some r.deliveryFee) 0
    cgst := (jsRound (subtotal * (5 / 100) / 2 * 100) : ℚ) / 100
    sgst := (jsRound (subtotal * (5 / 100) / 2 * 100) : ℚ) / 100
    igst := 0
    platformFee := (jsRound (subtotal * (2 / 100)) : ℚ)
    packagingFee := 10
    total := subtotal + jsOrQ (some r.deliveryFee) 0 +
      (jsRound (subtotal * (2 / 100)) : ℚ) + 10 +
      (jsRound (subtotal * (5 / 100) / 2 * 100) : ℚ) / 100 +
      (jsRound (subtotal * (5 / 100) / 2 * 100) : ℚ) / 100 }

/-- The document produced by a successful `createOrder`. -/
structure CreatedOrder where
  items : List OrderItem
  pricing : Pricing
  orderStatus : OrderStatus
  otp : Otp
deriving DecidableEq, Repr

/-- `createOrder` (orderController): check the restaurant, the address,
every item, and the minimum order value — each failure a distinct
reply — then price the order (2% platform fee, fixed packaging fee 10,
5% GST split into cgst/sgst, igst 0) and create it in status `pending`
with a fresh 4-digit OTP expiring 30 minutes after `now`. -/
def createOrder (restaurantOpt : Option Restaurant) (addrDb : List Address)
    (menu : List MenuItem) (userId deliveryAddress : Nat)
    (lines : List CartLine) (otpCode : String) (now : ℤ) :
    Except String CreatedOrder :=
  match restaurantOpt with
  | none => .error "Restaurant not available"
  | some r =>
    if !r.isActive then .error "Restaurant not available"
    else
      match findAddress addrDb deliveryAddress userId with
      | none => .error "Invalid delivery address"
      | some _ =>
        match processItems menu lines with
        | .error e => .error e
        | .ok (orderItems, subtotal) =>
          if subtotal < r.minimumOrder then .error "Minimum order value"
          else
            .ok
              { items := orderItems
                pricing := orderPricing r subtotal
                orderStatus := OrderStatus.pending
                otp := { code := otpCode, expiresAt := now + 30 * 60 * 1000 } }

/-- The fields of a `Review` document used by the rating hook. -/
structure Review where
  restaurant : Nat
  overall : ℚ
  isHidden : Bool
deriving DecidableEq, Repr

/-- A `rating` subdocument (`average`, `count`). -/
structure RatingAgg where
  average : ℚ
  count : Nat
deriving DecidableEq, Repr

/-- `reviewSchema.post(save)`, restaurant part: refetch every review of
the restaurant (hidden or not), and when any exist overwrite the
restaurant's `rating.average` with the mean of `ratings.overall`
rounded to one decimal and `rating.count` with the number of
reviews. -/
def updateRestaurantRating (reviews : List Review) (rid : Nat) (r : RatingAgg) :
    RatingAgg :=
  if 0 < (reviews.filter (fun rv => rv.restaurant == rid)).length then
    { average := (jsRound (((reviews.filter (fun rv => rv.restaurant == rid)).map
          (fun rv => rv.overall)).sum /
          (((reviews.filter (fun rv => rv.restaurant == rid)).length : ℚ)) * 10) : ℚ) / 10
      count := (reviews.filter (fun rv => rv.restaurant == rid)).length }
  else r

/-- Modelled from the spec: the claim's reading of the rating
invariant, averaging only the non-hidden reviews of the restaurant. -/
def specNonHiddenRating (reviews : List Review) (rid : Nat) : RatingAgg :=
  { average := (jsRound (((reviews.filter (fun rv => rv.restaurant == rid && !rv.isHidden)).map
        (fun rv => rv.overall)).sum /
        (((reviews.filter (fun rv => rv.restaurant == rid && !rv.isHidden)).length : ℚ)) * 10) :
        ℚ) / 10
    count := (reviews.filter (fun rv => rv.restaurant == rid && !rv.isHidden)).length }

/-- Modelled from the spec: claim C4's unit-price resolution rule —
when a variant is named, the variant's discounted price if present
else its price; otherwise the item's own discounted price if present
else its base price. -/
def specResolveUnitPrice (mi : MenuItem) (line : CartLine) : ℚ :=
  match line.variant with
  | some vs =>
    match mi.variants.find? (fun v => v.name == vs.name) with
    | some v => v.discountedPrice.getD v.price
    | none => mi.discountedPrice.getD mi.price
  | none => mi.discountedPrice.getD mi.price

/-! ### Concrete documents used by witnesses and counterexamples -/

/-- A cancelled order still holding a live OTP. -/
def exOrderCancelled : Order :=
  { id := 1, customer := 7, restaurantOwner := 2, deliveryPartner := none,
    deliveryPartnerUser := none, orderStatus := .cancelled, pricingTotal := 100,
    cancellationReason := none, cancellationDetails := none,
    actualDeliveryTime := none, otp := some { code := "1234", expiresAt := 10 } }

/-- An order already picked up, whose customer is user 7. -/
def exOrderReady : Order :=
  { id := 1, customer := 7, restaurantOwner := 2, deliveryPartner := none,
    deliveryPartnerUser := none, orderStatus := .ready_for_pickup, pricingTotal := 100,
    cancellationReason := none, cancellationDetails := none,
    actualDeliveryTime := none, otp := none }

/-- A pending order of customer 7 at restaurant owner 2, holding an OTP. -/
def exOrderPending : Order :=
  { id := 1, customer := 7, restaurantOwner := 2, deliveryPartner := none,
    deliveryPartnerUser := none, orderStatus := .pending, pricingTotal := 100,
    cancellationReason := none, cancellationDetails := none,
    actualDeliveryTime := none, otp := some { code := "4321", expiresAt := 50 } }

/-- An order that already has delivery partner 1 attached. -/
def exOrderAssigned : Order :=
  { id := 1, customer := 7, restaurantOwner := 3, deliveryPartner := some 1,
    deliveryPartnerUser := some 8, orderStatus := .ready_for_pickup, pricingTotal := 100,
    cancellationReason := none, cancellationDetails := none,
    actualDeliveryTime := none, otp := none }

/-- An online, approved, idle delivery partner. -/
def exPartnerIdle : Partner :=
  { id := 2, user := 9, isOnline := true, isApproved := true, currentOrder := none,
    totalOrders := 0, completedOrders := 0, completionRate := 0 }

/-- A partner who has accepted order 5 and never been released. -/
def exPartnerBusy : Partner :=
  { id := 2, user := 9, isOnline := true, isApproved := true, currentOrder := some 5,
    totalOrders := 1, completedOrders := 0, completionRate := 0 }

/-- A profile-update body carrying an explicit `currentOrder: null`. -/
def exClearBody : ProfileUpdateBody :=
  { currentOrder := some none, totalOrders := none, completedOrders := none }

/-- A profile-update body overwriting the statistics counts. -/
def exStatsBody : ProfileUpdateBody :=
  { currentOrder := none, totalOrders := some 1, completedOrders := some 1 }

/-- An active restaurant with no minimum order and a flat 30 delivery fee. -/
def exRest : Restaurant :=
  { owner := 1, isActive := true, minimumOrder := 0, deliveryFee := 30 }

/-- A menu item with a base price of 100 and a discounted price of 80,
no variants, no add-ons. -/
def exDiscItem : MenuItem :=
  { id := 5, name := "Pizza", price := 100, discountedPrice := some 80, isAvailable := true
    variants := [], addOns := [] }

/-- A cart line for item 5 with no variant, add-ons or customizations. -/
def exPlainLine : CartLine :=
  { menuItem := 5, quantity := 1, variant := none, addOns := [], customizations := [] }

/-- A cart line naming a variant and an add-on that do not exist on
item 5. -/
def exBadNamesLine : CartLine :=
  { menuItem := 5, quantity := 1, variant := some { name := "XL" },
    addOns := [{ name := "Extra Cheese" }], customizations := [] }

/-- The order created from an empty cart at `exRest`. -/
def exEmptyOrder : CreatedOrder :=
  { items := [], pricing := orderPricing exRest 0, orderStatus := .pending,
    otp := { code := "1234", expiresAt := 1800000 } }

/-- The order created from the single-line cart `[exPlainLine]` at
`exRest` with menu `[exDiscItem]`. -/
def exPizzaOrder : CreatedOrder :=
  { items := [{ menuItem := 5, name := "Pizza", price := 100, quantity := 1, itemTotal := 100 }],
    pricing := orderPricing exRest 100, orderStatus := .pending,
    otp := { code := "1234", expiresAt := 1800000 } }

/-! ### Helper lemmas -/

/-- `jsRound` agrees with the mathematical floor of `q + 1/2`. -/
theorem jsRound_eq_floor (q : ℚ) : jsRound q = ⌊q + 1/2⌋ := by
  unfold jsRound
  rw [Rat.floor_def, Rat.floor_def']

/-- `jsRound` of a nonnegative rational is nonnegative. -/
theorem jsRound_nonneg {q : ℚ} (h : 0 ≤ q) : 0 ≤ jsRound q := by
  rw [jsRound_eq_floor]
  have : ((0 : ℤ) : ℚ) ≤ q + 1/2 := by push_cast; linarith
  exact Int.le_floor.mpr this

/-- A successful OTP verification — any match of code and time. -/
theorem verifyDeliveryOTP_ok {o : Order} {t : Otp} {supplied : String} {now : ℤ}
    (h : o.otp = some t) (hcode : supplied = t.code) (htime : now ≤ t.expiresAt) :
    verifyDeliveryOTP supplied now o =
      .ok { o with orderStatus := OrderStatus.delivered,
                   actualDeliveryTime := some now, otp := none } := by
  subst hcode
  simp only [verifyDeliveryOTP, h]
  rw [if_neg]
  push_neg
  exact ⟨rfl, htime⟩

/-- A failed OTP verification — wrong code or expired. -/
theorem verifyDeliveryOTP_err {o : Order} {t : Otp} {supplied : String} {now : ℤ}
    (h : o.otp = some t) (hbad : supplied ≠ t.code ∨ t.expiresAt < now) :
    verifyDeliveryOTP supplied now o = .error "Invalid or expired OTP" := by
  simp only [verifyDeliveryOTP, h]
  rw [if_pos]
  exact hbad

/-- The document built by `applyStatusChange` carries the requested
status. -/
theorem applyStatusChange_orderStatus (u : UserCtx) (status : OrderStatus)
    (reason : Option String) (now : ℤ) (o : Order) :
    (applyStatusChange u status reason now o).orderStatus = status := by
  unfold applyStatusChange
  split_ifs <;> rfl

/-- A successful `updateOrderStatus` implies the requested transition
is in the table and is what was recorded. -/
theorem updateOrderStatus_ok_inv {u : UserCtx} {status : OrderStatus}
    {reason : Option String} {now : ℤ} {o o1 : Order}
    (h : updateOrderStatus u status reason now o = .ok o1) :
    status ∈ validTransitions o.orderStatus ∧ o1.orderStatus = status := by
  unfold updateOrderStatus at h
  split_ifs at h with h1 h2 h3
  constructor
  · have h2' : (validTransitions o.orderStatus).contains status = true := by
      revert h2
      cases (validTransitions o.orderStatus).contains status <;> simp
    simpa using h2'
  · cases h
    exact applyStatusChange_orderStatus u status reason now o

/-- An out-of-table request to `updateOrderStatus` is refused. -/
theorem updateOrderStatus_bad_transition {u : UserCtx} {status : OrderStatus}
    {reason : Option String} {now : ℤ} {o : Order}
    (h : status ∉ validTransitions o.orderStatus) :
    ∃ e, updateOrderStatus u status reason now o = .error e := by
  unfold updateOrderStatus
  have hc : (validTransitions o.orderStatus).contains status = false := by
    simpa using h
  by_cases h1 : (!canUpdateStatus u status o) = true
  · rw [if_pos h1]
    exact ⟨_, rfl⟩
  · rw [if_neg h1, if_pos (by rw [hc]; rfl)]
    exact ⟨_, rfl⟩

/-- A successful `cancelOrder` implies the order was in a cancellable
status, from each of which `cancelled` is in the transition table. -/
theorem cancelOrder_ok_inv {u : UserCtx} {reason : Option String} {o o1 : Order}
    (h : cancelOrder u reason o = .ok o1) :
    OrderStatus.cancelled ∈ validTransitions o.orderStatus ∧
      o1.orderStatus = OrderStatus.cancelled := by
  unfold cancelOrder at h
  split_ifs at h with h1 h2 h3
  have h2' : cancellableStatuses.contains o.orderStatus = true := by
    revert h2
    cases cancellableStatuses.contains o.orderStatus <;> simp
  have hmem : o.orderStatus ∈ cancellableStatuses := by simpa using h2'
  constructor
  · have hst : o.orderStatus = OrderStatus.pending ∨ o.orderStatus = OrderStatus.confirmed ∨
        o.orderStatus = OrderStatus.preparing := by
      simpa [cancellableStatuses] using hmem
    rcases hst with hs | hs | hs <;> rw [hs] <;> decide
  · cases h
    rfl

/-- A successful `acceptOrder` starts from `ready_for_pickup`, whose
table row allows `out_for_delivery`. -/
theorem acceptOrder_ok_inv {p : Partner} {o o1 : Order} {p1 : Partner}
    (h : acceptOrder p o = .ok (o1, p1)) :
    OrderStatus.out_for_delivery ∈ validTransitions o.orderStatus ∧
      o1.orderStatus = OrderStatus.out_for_delivery := by
  unfold acceptOrder at h
  split_ifs at h with h1 h2 h3
  push_neg at h3
  obtain ⟨hs, _⟩ := h3
  constructor
  · rw [hs]
    decide
  · cases h
    rfl

/-- C1 (corrected): the transition table
(pending→\x7bconfirmed,cancelled\x7d; …; delivered, cancelled, refunded
terminal) is respected by `updateOrderStatus` — an out-of-table request
fails and leaves the order unsaved — and also by `cancelOrder` and the
partner's `acceptOrder`; but OTP-based delivery confirmation does not
consult the table: any order holding a matching unexpired OTP is moved
to `delivered` regardless of its current status. -/
theorem transitionTable_respected_except_otp :
    (∀ (u : UserCtx) (status : OrderStatus) (reason : Option String) (now : ℤ)
        (o o1 : Order), updateOrderStatus u status reason now o = .ok o1 →
        status ∈ validTransitions o.orderStatus ∧ o1.orderStatus = status) ∧
    (∀ (u : UserCtx) (status : OrderStatus) (reason : Option String) (now : ℤ)
        (o : Order), status ∉ validTransitions o.orderStatus →
        ∃ e, updateOrderStatus u status reason now o = .error e) ∧
    (∀ (u : UserCtx) (reason : Option String) (o o1 : Order),
        cancelOrder u reason o = .ok o1 →
        OrderStatus.cancelled ∈ validTransitions o.orderStatus) ∧
    (∀ (p : Partner) (o o1 : Order) (p1 : Partner),
        acceptOrder p o = .ok (o1, p1) →
        OrderStatus.out_for_delivery ∈ validTransitions o.orderStatus) ∧
    (∀ (o : Order) (t : Otp) (now : ℤ), o.otp = some t → now ≤ t.expiresAt →
        verifyDeliveryOTP t.code now o =
          .ok { o with orderStatus := OrderStatus.delivered,
                       actualDeliveryTime := some now, otp := none }) := by
  refine ⟨?_, ?_, ?_, ?_, ?_⟩
  · intro u status reason now o o1 h
    exact updateOrderStatus_ok_inv h
  · intro u status reason now o h
    exact updateOrderStatus_bad_transition h
  · intro u reason o o1 h
    exact (cancelOrder_ok_inv h).1
  · intro p o o1 p1 h
    exact (acceptOrder_ok_inv h).1
  · intro o t now h htime
    exact verifyDeliveryOTP_ok h rfl htime

/-- C1 counterexample: a cancelled (terminal) order holding a live OTP
is moved to `delivered` by OTP verification, a transition absent from
the table — so the table is not respected by every status-changing
operation as claimed. -/
theorem transitionTable_otp_cex :
    (verifyDeliveryOTP "1234" 0 exOrderCancelled).toOption.map (fun o => o.orderStatus) =
        some OrderStatus.delivered ∧
      exOrderCancelled.orderStatus = OrderStatus.cancelled ∧
      OrderStatus.delivered ∉ validTransitions OrderStatus.cancelled := by
  decide

/-- C1 witness: the amended theorem applied at concrete inputs — an
out-of-table request on a pending order is refused, and OTP delivery
succeeds on the pending order `exOrderPending`. -/
theorem transitionTable_respected_except_otp_witness :
    (∃ e, updateOrderStatus { id := 9, role := Role.admin } OrderStatus.delivered none 0
        exOrderPending = .error e) ∧
      verifyDeliveryOTP "4321" 0 exOrderPending =
        .ok { exOrderPending with orderStatus := OrderStatus.delivered,
                                  actualDeliveryTime := some 0, otp := none } :=
  ⟨transitionTable_respected_except_otp.2.1 _ OrderStatus.delivered none 0 exOrderPending
      (by decide),
    transitionTable_respected_except_otp.2.2.2.2 exOrderPending { code := "4321", expiresAt := 50 }
      0 rfl (by decide)⟩

/-- C3 (confirmed): for an order holding an OTP, verification with the
stored code at a time ≤ the expiry instant sets the order delivered,
records `actualDeliveryTime := now` and clears `otp` — and changes
nothing else; a wrong code or a strictly later time produces an error
reply, saving nothing. -/
theorem verifyDeliveryOTP_correct (o : Order) (t : Otp) (supplied : String) (now : ℤ)
    (h : o.otp = some t) :
    (supplied = t.code ∧ now ≤ t.expiresAt →
      verifyDeliveryOTP supplied now o =
        .ok { o with orderStatus := OrderStatus.delivered,
                     actualDeliveryTime := some now, otp := none }) ∧
    (supplied ≠ t.code ∨ t.expiresAt < now →
      verifyDeliveryOTP supplied now o = .error "Invalid or expired OTP") := by
  constructor
  · rintro ⟨hcode, htime⟩
    exact verifyDeliveryOTP_ok h hcode htime
  · intro hbad
    exact verifyDeliveryOTP_err h hbad

/-- C3 witness: verification of the pending order `exOrderPending` at
its expiry instant succeeds; a wrong code fails. -/
theorem verifyDeliveryOTP_correct_witness :
    (verifyDeliveryOTP "4321" 50 exOrderPending =
      .ok { exOrderPending with orderStatus := OrderStatus.delivered,
                                actualDeliveryTime := some 50, otp := none }) ∧
    verifyDeliveryOTP "0000" 50 exOrderPending = .error "Invalid or expired OTP" :=
  ⟨(verifyDeliveryOTP_correct exOrderPending { code := "4321", expiresAt := 50 } "4321" 50
      rfl).1 ⟨rfl, by decide⟩,
    (verifyDeliveryOTP_correct exOrderPending { code := "4321", expiresAt := 50 } "0000" 50
      rfl).2 (Or.inl (by decide))⟩

/-- C6 (corrected): a customer who is neither admin, restaurant owner
nor assigned delivery partner can only ever request `cancelled`: any
other status is refused outright.  The dedicated `cancelOrder` allows
cancellation exactly from \x7bpending, confirmed, preparing\x7d; but the
generic `updateOrderStatus` allows the customer's cancellation from
every status whose table row contains `cancelled` — including
`ready_for_pickup` and `out_for_delivery`. -/
theorem customer_cancel_policy (u : UserCtx) (o : Order) (reason : Option String)
    (now : ℤ) (hrole : u.role = Role.customer) (hown : o.restaurantOwner ≠ u.id)
    (hdp : o.deliveryPartnerUser ≠ some u.id) (hcust : o.customer = u.id) :
    (∀ status, status ≠ OrderStatus.cancelled →
      updateOrderStatus u status reason now o = .error "Access denied") ∧
    (OrderStatus.cancelled ∈ validTransitions o.orderStatus →
      updateOrderStatus u OrderStatus.cancelled reason now o =
        .ok (applyStatusChange u OrderStatus.cancelled reason now o)) ∧
    (OrderStatus.cancelled ∉ validTransitions o.orderStatus →
      ∃ e, updateOrderStatus u OrderStatus.cancelled reason now o = .error e) ∧
    ((cancelOrder u reason o).isOk = true ↔ o.orderStatus ∈ cancellableStatuses) := by
  refine ⟨?_, ?_, ?_, ?_⟩
  · intro status hst
    unfold updateOrderStatus
    rw [if_pos]
    simp [canUpdateStatus, hrole, hown, hdp, hst]
  · intro htrans
    unfold updateOrderStatus
    rw [if_neg, if_neg, if_pos]
    · simp [validateOrder, applyStatusChange, hrole, roleString, cancelledByEnum]
    · simp only [Bool.not_eq_true, Bool.not_eq_false]
      simpa using htrans
    · simp [canUpdateStatus, hcust]
  · intro htrans
    exact updateOrderStatus_bad_transition htrans
  · by_cases hmem : o.orderStatus ∈ cancellableStatuses
    · have hc : cancellableStatuses.contains o.orderStatus = true := by simpa using hmem
      simp [cancelOrder, hcust, hc, validateOrder, applyCancellation, cancelledByEnum,
        Except.isOk, Except.toBool, hmem]
    · have hc : cancellableStatuses.contains o.orderStatus = false := by simpa using hmem
      simp [cancelOrder, hcust, hc, Except.isOk, Except.toBool, hmem]

/-- C6 counterexample: customer 7's order `exOrderReady` is in
`ready_for_pickup`; the dedicated cancel operation refuses, but the
generic status update accepts the customer's cancellation — the claim
says both must fail from this status. -/
theorem customer_cancel_policy_cex :
    (updateOrderStatus { id := 7, role := Role.customer } OrderStatus.cancelled none 0
          exOrderReady).toOption.map (fun o => o.orderStatus) =
        some OrderStatus.cancelled ∧
      exOrderReady.orderStatus = OrderStatus.ready_for_pickup ∧
      exOrderReady.orderStatus ∉ cancellableStatuses ∧
      (cancelOrder { id := 7, role := Role.customer } none exOrderReady).isOk = false := by
  decide

/-- C6 witness: for customer 7 and the pending order `exOrderPending`,
a non-cancel request is refused and the dedicated cancel succeeds. -/
theorem customer_cancel_policy_witness :
    updateOrderStatus { id := 7, role := Role.customer } OrderStatus.confirmed none 0
        exOrderPending = .error "Access denied" ∧
      (cancelOrder { id := 7, role := Role.customer } none exOrderPending).isOk = true :=
  ⟨(customer_cancel_policy { id := 7, role := Role.customer } exOrderPending none 0
        rfl (by decide) (by decide) rfl).1 OrderStatus.confirmed (by decide),
    ((customer_cancel_policy { id := 7, role := Role.customer } exOrderPending none 0
        rfl (by decide) (by decide) rfl).2.2.2).mpr (by decide)⟩

/-- C10 (confirmed): via the generic status update, a cancellation
stores the caller's raw role string in
`cancellationDetails.cancelledBy`; the role enum is \x7bcustomer,
restaurant_owner, admin\x7d while the order schema's `cancelledBy` enum is
\x7bcustomer, restaurant, admin, system\x7d, so a restaurant owner's
cancellation — though authorized and a valid transition — always dies
in schema validation at save time. -/
theorem ownerCancel_schema_mismatch (u : UserCtx) (o : Order) (reason : Option String)
    (now : ℤ) (hrole : u.role = Role.restaurant_owner) (hown : o.restaurantOwner = u.id)
    (htrans : OrderStatus.cancelled ∈ validTransitions o.orderStatus) :
    (applyStatusChange u OrderStatus.cancelled reason now o).cancellationDetails =
        some { reason := reason.getD "No reason provided"
               cancelledBy := roleString u.role
               refundAmount := o.pricingTotal
               refundStatus := "pending" } ∧
      roleString u.role = "restaurant_owner" ∧
      roleString u.role ∉ cancelledByEnum ∧
      canUpdateStatus u OrderStatus.cancelled o = true ∧
      updateOrderStatus u OrderStatus.cancelled reason now o =
        .error "Order validation failed" := by
  refine ⟨?_, ?_, ?_, ?_, ?_⟩
  · simp [applyStatusChange]
  · rw [hrole]
    rfl
  · rw [hrole]
    decide
  · simp [canUpdateStatus, hown]
  · unfold updateOrderStatus
    rw [if_neg, if_neg, if_neg]
    · simp [validateOrder, applyStatusChange, hrole, roleString, cancelledByEnum]
    · simp only [Bool.not_eq_true, Bool.not_eq_false]
      simpa using htrans
    · simp [canUpdateStatus, hown]

/-- C10 witness: restaurant owner 2 cancelling the pending order
`exOrderPending` passes authorization and the transition check but the
save fails validation. -/
theorem ownerCancel_schema_mismatch_witness :
    canUpdateStatus { id := 2, role := Role.restaurant_owner } OrderStatus.cancelled
        exOrderPending = true ∧
      updateOrderStatus { id := 2, role := Role.restaurant_owner } OrderStatus.cancelled
        none 0 exOrderPending = .error "Order validation failed" :=
  ⟨(ownerCancel_schema_mismatch { id := 2, role := Role.restaurant_owner } exOrderPending
        none 0 rfl rfl (by decide)).2.2.2.1,
    (ownerCancel_schema_mismatch { id := 2, role := Role.restaurant_owner } exOrderPending
        none 0 rfl rfl (by decide)).2.2.2.2⟩

/-- `jsRound` at zero. -/
theorem jsRound_zero : jsRound 0 = 0 := by
  rw [jsRound_eq_floor]
  norm_num

/-- The completion-rate hook touches no field but `completionRate`. -/
theorem partnerPreSave_fields (p : Partner) :
    (partnerPreSave p).completedOrders = p.completedOrders ∧
      (partnerPreSave p).currentOrder = p.currentOrder ∧
      (partnerPreSave p).totalOrders = p.totalOrders := by
  unfold partnerPreSave
  split_ifs <;> exact ⟨rfl, rfl, rfl⟩

/-- A partner with no completed orders and a zero completion rate
keeps a zero completion rate through the pre-save hook. -/
theorem partnerPreSave_rate_zero {q : Partner} (h0 : q.completedOrders = 0)
    (hr : q.completionRate = 0) : (partnerPreSave q).completionRate = 0 := by
  unfold partnerPreSave
  split_ifs with ht
  · simp [h0, jsRound_zero]
  · exact hr

/-- Full inversion of a successful `acceptOrder`. -/
theorem acceptOrder_ok_full {p : Partner} {o o1 : Order} {p1 : Partner}
    (h : acceptOrder p o = .ok (o1, p1)) :
    p.isOnline = true ∧ p.currentOrder = none ∧
      o.orderStatus = OrderStatus.ready_for_pickup ∧ o.deliveryPartner = none ∧
      o1 = { o with deliveryPartner := some p.id, deliveryPartnerUser := some p.user,
                    orderStatus := OrderStatus.out_for_delivery } ∧
      p1 = partnerPreSave
        { p with currentOrder := some o.id, totalOrders := p.totalOrders + 1 } := by
  unfold acceptOrder at h
  split_ifs at h with h1 h2 h3
  push_neg at h3
  obtain ⟨hs, hdp⟩ := h3
  refine ⟨by simpa using h1, by simpa using h2, hs, by simpa using hdp, ?_, ?_⟩
  · cases h
    rfl
  · cases h
    rfl

/-- A single partner write never increments `completedOrders`, never
clears a set `currentOrder`, and keeps a zero completion rate zero. -/
theorem partnerStep_inv {p p1 : Partner} (h : PartnerStep p p1) :
    p1.completedOrders = p.completedOrders ∧
      (∀ x, p.currentOrder = some x → p1.currentOrder = some x) ∧
      (p.completedOrders = 0 ∧ p.completionRate = 0 → p1.completionRate = 0) := by
  cases h with
  | accept hacc =>
    obtain ⟨-, hnone, -, -, -, hp1⟩ := acceptOrder_ok_full hacc
    subst hp1
    refine ⟨(partnerPreSave_fields _).1, ?_, ?_⟩
    · intro x hx
      rw [hnone] at hx
      cases hx
    · rintro ⟨h0, hr⟩
      exact partnerPreSave_rate_zero h0 hr
  | availability b hav =>
    unfold updateAvailability at hav
    split_ifs at hav
    cases hav
    refine ⟨(partnerPreSave_fields _).1, ?_, ?_⟩
    · intro x hx
      rw [(partnerPreSave_fields _).2.1]
      exact hx
    · rintro ⟨h0, hr⟩
      exact partnerPreSave_rate_zero h0 hr
  | approval b =>
    unfold updateApprovalStatus
    refine ⟨(partnerPreSave_fields _).1, ?_, ?_⟩
    · intro x hx
      rw [(partnerPreSave_fields _).2.1]
      exact hx
    · rintro ⟨h0, hr⟩
      exact partnerPreSave_rate_zero h0 hr
  | deliver supplied now o =>
    exact ⟨rfl, fun x hx => hx, fun h => h.2⟩

/-- `acceptOrder` refuses a partner whose `currentOrder` is set. -/
theorem acceptOrder_busy_fails (p : Partner) (o : Order)
    (h : p.currentOrder.isSome = true) : (acceptOrder p o).isOk = false := by
  unfold acceptOrder
  by_cases hon : (!p.isOnline) = true
  · rw [if_pos hon]
    rfl
  · rw [if_neg hon, if_pos h]
    rfl

/-- C9 (corrected): across the delivery-flow partner operations —
accept, availability and approval updates, and OTP delivery
confirmation, which saves only the order — `completedOrders` is never
incremented and a set `currentOrder` is never cleared, so through
those operations alone an accepting partner can never accept again and
a completion rate of 0 never rises.  The unvalidated profile update,
however, `Object.assign`s the request body onto the partner: a body
carrying `currentOrder: null` clears the field (after which accepting
succeeds again), and a body carrying statistics overwrites the counts
the completion rate is recomputed from. -/
theorem partner_never_released :
    (∀ p p1 : Partner, PartnerStep p p1 →
      p1.completedOrders = p.completedOrders ∧
        (∀ x, p.currentOrder = some x → p1.currentOrder = some x)) ∧
    (∀ p p1 : Partner, PartnerReach p p1 →
      (p.completedOrders = 0 → p1.completedOrders = 0) ∧
        (p.currentOrder.isSome = true → p1.currentOrder.isSome = true) ∧
        (p.completedOrders = 0 ∧ p.completionRate = 0 →
          p1.completedOrders = 0 ∧ p1.completionRate = 0)) ∧
    (∀ (p : Partner) (o : Order), p.currentOrder.isSome = true →
      (acceptOrder p o).isOk = false) ∧
    (∀ (p : Partner) (body : ProfileUpdateBody), body.currentOrder = some none →
      (updateMyProfile body p).currentOrder = none) := by
  refine ⟨?_, ?_, ?_, ?_⟩
  · intro p p1 h
    exact ⟨(partnerStep_inv h).1, (partnerStep_inv h).2.1⟩
  · intro p p1 h
    induction h with
    | refl => exact ⟨id, id, id⟩
    | tail hab hbc ih =>
      obtain ⟨ih0, ihsome, ihrate⟩ := ih
      obtain ⟨hs0, hssome, hsrate⟩ := partnerStep_inv hbc
      refine ⟨?_, ?_, ?_⟩
      · intro h0
        rw [hs0]
        exact ih0 h0
      · intro hsome
        obtain ⟨x, hx⟩ := Option.isSome_iff_exists.mp (ihsome hsome)
        rw [hssome x hx]
        rfl
      · rintro ⟨h0, hr⟩
        obtain ⟨hb0, hbr⟩ := ihrate ⟨h0, hr⟩
        exact ⟨by rw [hs0]; exact hb0, hsrate ⟨hb0, hbr⟩⟩
  · exact acceptOrder_busy_fails
  · intro p body hbody
    unfold updateMyProfile
    rw [(partnerPreSave_fields _).2.1]
    rw [hbody]
    rfl

/-- C9 counterexample: the busy partner `exPartnerBusy` holds order 5,
yet a profile update whose body carries `currentOrder: null` clears
the field, after which the partner's accept request for `exOrderReady`
succeeds; and a profile update carrying statistics raises the
completion rate to 100 — so the claim's "no operation ever" is false
of the program. -/
theorem partner_release_cex :
    (updateMyProfile exClearBody exPartnerBusy).currentOrder = none ∧
      (acceptOrder (updateMyProfile exClearBody exPartnerBusy) exOrderReady).isOk = true ∧
      (updateMyProfile exStatsBody exPartnerBusy).completionRate = 100 := by
  have h100 : jsRound (100 : ℚ) = 100 := by
    rw [jsRound_eq_floor, show (100 : ℚ) + 1/2 = 201/2 by norm_num, Int.floor_eq_iff]
    constructor <;> norm_num
  refine ⟨?_, ?_, ?_⟩
  · simp [updateMyProfile, partnerPreSave, exPartnerBusy, exClearBody]
  · simp [updateMyProfile, partnerPreSave, exPartnerBusy, exClearBody, acceptOrder,
      exOrderReady, Except.isOk, Except.toBool]
  · simp [updateMyProfile, partnerPreSave, exPartnerBusy, exStatsBody, h100]

/-- C9 witness: the busy partner `exPartnerBusy` keeps its zero
completed-order count through an empty write sequence, its accept
request for `exOrderReady` is refused, and the null-body profile
update clears its current order. -/
theorem partner_never_released_witness :
    exPartnerBusy.completedOrders = 0 ∧
      (acceptOrder exPartnerBusy exOrderReady).isOk = false ∧
      (updateMyProfile exClearBody exPartnerBusy).currentOrder = none :=
  ⟨(partner_never_released.2.1 exPartnerBusy exPartnerBusy
      Relation.ReflTransGen.refl).1 rfl,
    partner_never_released.2.2.1 exPartnerBusy exOrderReady (by decide),
    partner_never_released.2.2.2 exPartnerBusy exClearBody rfl⟩

/-- C8 (corrected): the partner-side `acceptOrder` enforces everything
the claim lists — online partner, free partner, unassigned
ready-for-pickup order — and on success writes both documents,
incrementing the partner's `totalOrders`.  The restaurant-owner
`assignDeliveryPartner`, however, checks only owner/admin authorization
and that the candidate is online: it overwrites any existing
assignment and never touches the partner document. -/
theorem delivery_attachment_ops :
    (∀ (p : Partner) (o o1 : Order) (p1 : Partner),
      acceptOrder p o = .ok (o1, p1) →
        p.isOnline = true ∧ p.currentOrder = none ∧
        o.orderStatus = OrderStatus.ready_for_pickup ∧ o.deliveryPartner = none ∧
        o1.deliveryPartner = some p.id ∧ o1.orderStatus = OrderStatus.out_for_delivery ∧
        p1.currentOrder = some o.id ∧ p1.totalOrders = p.totalOrders + 1) ∧
    (∀ (p : Partner) (o : Order), p.isOnline = true → p.currentOrder = none →
      o.orderStatus = OrderStatus.ready_for_pickup → o.deliveryPartner = none →
      (acceptOrder p o).isOk = true) ∧
    (∀ (u : UserCtx) (p : Partner) (o : Order),
      (o.restaurantOwner = u.id ∨ u.role = Role.admin) → p.isOnline = true →
      assignDeliveryPartner u (some p) o =
        .ok { o with deliveryPartner := some p.id, deliveryPartnerUser := some p.user }) := by
  refine ⟨?_, ?_, ?_⟩
  · intro p o o1 p1 h
    obtain ⟨hon, hfree, hs, hdp, ho1, hp1⟩ := acceptOrder_ok_full h
    subst ho1
    subst hp1
    exact ⟨hon, hfree, hs, hdp, rfl, rfl,
      by rw [(partnerPreSave_fields _).2.1],
      by rw [(partnerPreSave_fields _).2.2]⟩
  · intro p o hon hfree hs hdp
    unfold acceptOrder
    rw [if_neg (by simp [hon]), if_neg (by simp [hfree]), if_neg (by simp [hs, hdp])]
    rfl
  · intro u p o hauth hon
    unfold assignDeliveryPartner
    rw [if_neg (by tauto)]
    simp [hon]

/-- C8 counterexample: order `exOrderAssigned` already has delivery
partner 1, yet `assignDeliveryPartner` by the owner attaches online
partner 2 anyway — the claim says every attachment operation requires
the order to have no partner yet. -/
theorem delivery_attachment_cex :
    exOrderAssigned.deliveryPartner = some 1 ∧
      (assignDeliveryPartner { id := 3, role := Role.restaurant_owner }
          (some exPartnerIdle) exOrderAssigned).toOption.map
        (fun o => o.deliveryPartner) = some (some 2) := by
  decide

/-- C8 witness: the idle online partner `exPartnerIdle` successfully
accepts the unassigned ready order `exOrderReady`. -/
theorem delivery_attachment_ops_witness :
    (acceptOrder exPartnerIdle exOrderReady).isOk = true :=
  delivery_attachment_ops.2.1 exPartnerIdle exOrderReady rfl rfl rfl rfl

/-- Inversion of a successful `createOrder`: the checks passed and the
result is assembled from `processItems`' output and `orderPricing`. -/
theorem createOrder_ok_inv {r : Restaurant} {addrDb : List Address}
    {menu : List MenuItem} {uid aid : Nat} {lines : List CartLine}
    {code : String} {now : ℤ} {o : CreatedOrder}
    (h : createOrder (some r) addrDb menu uid aid lines code now = .ok o) :
    r.isActive = true ∧ ∃ a its st, findAddress addrDb aid uid = some a ∧
      processItems menu lines = .ok (its, st) ∧ ¬ st < r.minimumOrder ∧
      o.items = its ∧ o.pricing = orderPricing r st := by
  simp only [createOrder] at h
  split_ifs at h with hact
  cases hfa : findAddress addrDb aid uid with
  | none =>
    rw [hfa] at h
    dsimp only at h
    cases h
  | some a =>
    rw [hfa] at h
    dsimp only at h
    cases hpi : processItems menu lines with
    | error e =>
      rw [hpi] at h
      dsimp only at h
      cases h
    | ok pr =>
      obtain ⟨its, st⟩ := pr
      rw [hpi] at h
      dsimp only at h
      split_ifs at h with hmin
      cases h
      exact ⟨by simpa using hact, a, its, st, rfl, rfl, hmin, rfl, rfl⟩

/-- C2 (confirmed): for every cart that passes all order-creation
preconditions, the created order's pricing satisfies
total = subtotal + deliveryFee + platformFee + packagingFee + cgst +
sgst, with deliveryFee the restaurant's flat fee, platformFee =
round(2% of subtotal), packagingFee = 10, cgst = sgst =
round(subtotal × 0.025, 2 decimals), igst = 0, and every component
nonnegative (the restaurant schema keeps `minimumOrder` and
`deliveryFee` nonnegative). -/
theorem createOrder_pricing_correct {r : Restaurant} {addrDb : List Address}
    {menu : List MenuItem} {uid aid : Nat} {lines : List CartLine}
    {code : String} {now : ℤ} {o : CreatedOrder}
    (hmin : 0 ≤ r.minimumOrder) (hfee : 0 ≤ r.deliveryFee)
    (h : createOrder (some r) addrDb menu uid aid lines code now = .ok o) :
    o.pricing.total = o.pricing.subtotal + o.pricing.deliveryFee + o.pricing.platformFee +
        o.pricing.packagingFee + o.pricing.cgst + o.pricing.sgst ∧
      o.pricing.deliveryFee = r.deliveryFee ∧
      o.pricing.platformFee = (jsRound (o.pricing.subtotal * (2 / 100)) : ℚ) ∧
      o.pricing.packagingFee = 10 ∧
      o.pricing.cgst = (jsRound (o.pricing.subtotal * (25 / 1000) * 100) : ℚ) / 100 ∧
      o.pricing.sgst = o.pricing.cgst ∧
      o.pricing.igst = 0 ∧
      0 ≤ o.pricing.subtotal ∧ 0 ≤ o.pricing.deliveryFee ∧ 0 ≤ o.pricing.platformFee ∧
      0 ≤ o.pricing.packagingFee ∧ 0 ≤ o.pricing.cgst ∧ 0 ≤ o.pricing.sgst ∧
      0 ≤ o.pricing.total := by
  obtain ⟨-, a, its, st, -, -, hstmin, -, hpr⟩ := createOrder_ok_inv h
  have hst : 0 ≤ st := le_trans hmin (not_lt.mp hstmin)
  have hdf : jsOrQ (some r.deliveryFee) 0 = r.deliveryFee := by
    simp only [jsOrQ]
    split_ifs with h0
    · exact h0.symm
    · rfl
  have hplat : (0 : ℚ) ≤ (jsRound (st * (2 / 100)) : ℚ) := by
    have := jsRound_nonneg (q := st * (2 / 100)) (by positivity)
    exact_mod_cast this
  have hcg : (0 : ℚ) ≤ (jsRound (st * (5 / 100) / 2 * 100) : ℚ) / 100 := by
    have := jsRound_nonneg (q := st * (5 / 100) / 2 * 100) (by positivity)
    positivity
  have harg : st * (5 / 100) / 2 * 100 = st * (25 / 1000) * 100 := by ring
  rw [hpr]
  refine ⟨rfl, hdf, rfl, rfl, ?_, rfl, rfl, hst, ?_, hplat,
    by show (0 : ℚ) ≤ 10; norm_num, hcg, hcg, ?_⟩
  · show (jsRound (st * (5 / 100) / 2 * 100) : ℚ) / 100 =
      (jsRound (st * (25 / 1000) * 100) : ℚ) / 100
    rw [harg]
  · show (0 : ℚ) ≤ jsOrQ (some r.deliveryFee) 0
    rw [hdf]
    exact hfee
  · show (0 : ℚ) ≤ st + jsOrQ (some r.deliveryFee) 0 +
      (jsRound (st * (2 / 100)) : ℚ) + 10 +
      (jsRound (st * (5 / 100) / 2 * 100) : ℚ) / 100 +
      (jsRound (st * (5 / 100) / 2 * 100) : ℚ) / 100
    rw [hdf]
    linarith

/-- C2 witness: an empty cart at `exRest` (minimum order 0) passes all
checks; its pricing satisfies the invariant. -/
theorem createOrder_pricing_correct_witness :
    (createOrder (some exRest) [{ id := 3, user := 7 }] [] 7 3 [] "1234" 0 =
        .ok exEmptyOrder) ∧
      exEmptyOrder.pricing.total = exEmptyOrder.pricing.subtotal +
        exEmptyOrder.pricing.deliveryFee + exEmptyOrder.pricing.platformFee +
        exEmptyOrder.pricing.packagingFee + exEmptyOrder.pricing.cgst +
        exEmptyOrder.pricing.sgst ∧
      0 ≤ exEmptyOrder.pricing.total :=
  have h : createOrder (some exRest) [{ id := 3, user := 7 }] [] 7 3 [] "1234" 0 =
      .ok exEmptyOrder := by
    simp only [createOrder, processItems, findAddress, List.find?, exRest, exEmptyOrder]
    norm_num
  ⟨h, (createOrder_pricing_correct (by norm_num [exRest]) (by norm_num [exRest]) h).1,
    (createOrder_pricing_correct (by norm_num [exRest]) (by norm_num [exRest]) h).2.2.2.2.2.2.2.2.2.2.2.2.2⟩

/-- Each snapshotted item of a successful `processItems` run comes from
a found, available menu item via `mkOrderItem`. -/
theorem processItems_forall₂ {menu : List MenuItem} {lines : List CartLine}
    {its : List OrderItem} {st : ℚ} (h : processItems menu lines = .ok (its, st)) :
    List.Forall₂ (fun line it => ∃ mi,
      menu.find? (fun m => m.id == line.menuItem) = some mi ∧
      mi.isAvailable = true ∧ it = mkOrderItem mi line) lines its := by
  induction lines generalizing its st with
  | nil =>
    simp only [processItems] at h
    cases h
    exact List.Forall₂.nil
  | cons line rest ih =>
    simp only [processItems] at h
    cases hf : menu.find? (fun m => m.id == line.menuItem) with
    | none =>
      rw [hf] at h
      dsimp only at h
      cases h
    | some mi =>
      rw [hf] at h
      dsimp only at h
      split_ifs at h with hav
      cases hrec : processItems menu rest with
      | error e =>
        rw [hrec] at h
        dsimp only at h
        cases h
      | ok pr =>
        obtain ⟨its', st'⟩ := pr
        rw [hrec] at h
        dsimp only at h
        cases h
        exact List.Forall₂.cons ⟨mi, hf, by simpa using hav, rfl⟩ (ih hrec)

/-- C4 (corrected): the unit price snapshotted for each cart line is
`resolvePrice`: when a variant is named and exists on the menu item,
the variant's discounted price if present (and nonzero) else the
variant's price; otherwise the menu item's base price — the item's own
discounted price is never consulted. -/
theorem createOrder_price_resolution {r : Restaurant} {addrDb : List Address}
    {menu : List MenuItem} {uid aid : Nat} {lines : List CartLine}
    {code : String} {now : ℤ} {o : CreatedOrder}
    (h : createOrder (some r) addrDb menu uid aid lines code now = .ok o) :
    List.Forall₂ (fun (line : CartLine) (it : OrderItem) => ∃ mi,
      menu.find? (fun m => m.id == line.menuItem) = some mi ∧
      mi.isAvailable = true ∧ it.price = resolvePrice mi line ∧
      it.quantity = line.quantity ∧ it.itemTotal = lineTotal mi line) lines o.items := by
  obtain ⟨-, a, its, st, -, hpi, -, hits, -⟩ := createOrder_ok_inv h
  rw [hits]
  refine (processItems_forall₂ hpi).imp ?_
  rintro line it ⟨mi, hf, hav, rfl⟩
  exact ⟨mi, hf, hav, rfl, rfl, rfl⟩

/-- C4 counterexample: item 5 has base price 100 and discounted price
80; for a line with no variant the order snapshots 100, while the
claim's resolution rule (`specResolveUnitPrice`) demands 80. -/
theorem price_resolution_cex :
    (createOrder (some exRest) [{ id := 3, user := 7 }] [exDiscItem] 7 3 [exPlainLine]
          "1234" 0).toOption.map (fun o => o.items.map (fun it => it.price)) =
        some [100] ∧
      specResolveUnitPrice exDiscItem exPlainLine = 80 ∧ ((100 : ℚ) ≠ 80) := by
  refine ⟨?_, rfl, by norm_num⟩
  simp only [createOrder, processItems, findAddress, List.find?, exRest, exDiscItem,
    exPlainLine, mkOrderItem, lineTotal, resolvePrice, lineAddOns, lineCustomizations,
    jsOrQ, Except.toOption, Option.map]
  norm_num

/-- C4 witness: the resolution theorem applied to the one-line pizza
cart. -/
theorem createOrder_price_resolution_witness :
    (createOrder (some exRest) [{ id := 3, user := 7 }] [exDiscItem] 7 3 [exPlainLine]
        "1234" 0 = .ok exPizzaOrder) ∧
      List.Forall₂ (fun (line : CartLine) (it : OrderItem) => ∃ mi,
        [exDiscItem].find? (fun m => m.id == line.menuItem) = some mi ∧
        mi.isAvailable = true ∧ it.price = resolvePrice mi line ∧
        it.quantity = line.quantity ∧ it.itemTotal = lineTotal mi line)
        [exPlainLine] exPizzaOrder.items :=
  have h : createOrder (some exRest) [{ id := 3, user := 7 }] [exDiscItem] 7 3 [exPlainLine]
      "1234" 0 = .ok exPizzaOrder := by
    simp only [createOrder, processItems, findAddress, List.find?, exRest, exDiscItem,
      exPlainLine, exPizzaOrder, mkOrderItem, lineTotal, resolvePrice, lineAddOns,
      lineCustomizations, jsOrQ]
    norm_num
  ⟨h, createOrder_price_resolution h⟩

/-- The item loop succeeds whenever every cart line's menu item exists
and is available — variant and add-on names play no part. -/
theorem processItems_ok_of_items_ok {menu : List MenuItem} {lines : List CartLine}
    (h : ∀ line ∈ lines, ∃ mi,
      menu.find? (fun m => m.id == line.menuItem) = some mi ∧ mi.isAvailable = true) :
    ∃ its st, processItems menu lines = .ok (its, st) := by
  induction lines with
  | nil => exact ⟨[], 0, rfl⟩
  | cons line rest ih =>
    obtain ⟨mi, hf, hav⟩ := h line (List.mem_cons_self line rest)
    obtain ⟨its, st, hrec⟩ := ih (fun l hl => h l (List.mem_cons_of_mem line hl))
    refine ⟨mkOrderItem mi line :: its, st + lineTotal mi line, ?_⟩
    simp only [processItems, hf, hrec]
    rw [if_neg (by simp [hav])]

/-- When some cart line's menu item is missing or unavailable, the
item loop fails with the distinct "Menu item … is not available"
reply. -/
theorem processItems_err_of_bad_item {menu : List MenuItem} {lines : List CartLine}
    (h : ∃ line ∈ lines, ¬∃ mi,
      menu.find? (fun m => m.id == line.menuItem) = some mi ∧ mi.isAvailable = true) :
    ∃ e, processItems menu lines = .error e ∧
      (e = "Menu item not found is not available" ∨
        ∃ mi : MenuItem, e = "Menu item " ++ mi.name ++ " is not available") := by
  induction lines with
  | nil =>
    obtain ⟨line, hline, -⟩ := h
    cases hline
  | cons line rest ih =>
    cases hf : menu.find? (fun m => m.id == line.menuItem) with
    | none =>
      refine ⟨"Menu item not found is not available", ?_, Or.inl rfl⟩
      simp only [processItems, hf]
    | some mi =>
      by_cases hav : mi.isAvailable = true
      · obtain ⟨l, hl, hbad⟩ := h
        rcases List.mem_cons.mp hl with rfl | hlr
        · exact absurd ⟨mi, hf, hav⟩ hbad
        · obtain ⟨e, herr, hshape⟩ := ih ⟨l, hlr, hbad⟩
          refine ⟨e, ?_, hshape⟩
          simp only [processItems, hf]
          rw [if_neg (by simp [hav]), herr]
      · have hav' : mi.isAvailable = false := by
          cases hmi : mi.isAvailable
          · rfl
          · exact absurd hmi hav
        refine ⟨"Menu item " ++ mi.name ++ " is not available", ?_, Or.inr ⟨mi, rfl⟩⟩
        simp only [processItems, hf]
        rw [if_pos (by simp [hav'])]

/-- C5 (corrected): order creation fails with a distinct error exactly
for the checked preconditions — missing or inactive restaurant,
foreign delivery address, missing or unavailable menu item, and a
subtotal below the minimum order — but variant and add-on names are
not validated: creation succeeds whatever they are, unknown variants
falling back to the base price and unknown or unavailable add-ons
contributing nothing. -/
theorem createOrder_checked_preconditions :
    (∀ (addrDb : List Address) (menu : List MenuItem) (uid aid : Nat)
        (lines : List CartLine) (code : String) (now : ℤ),
      createOrder none addrDb menu uid aid lines code now =
        .error "Restaurant not available") ∧
    (∀ (r : Restaurant) (addrDb : List Address) (menu : List MenuItem) (uid aid : Nat)
        (lines : List CartLine) (code : String) (now : ℤ), r.isActive = false →
      createOrder (some r) addrDb menu uid aid lines code now =
        .error "Restaurant not available") ∧
    (∀ (r : Restaurant) (addrDb : List Address) (menu : List MenuItem) (uid aid : Nat)
        (lines : List CartLine) (code : String) (now : ℤ), r.isActive = true →
      findAddress addrDb aid uid = none →
      createOrder (some r) addrDb menu uid aid lines code now =
        .error "Invalid delivery address") ∧
    (∀ (r : Restaurant) (addrDb : List Address) (menu : List MenuItem) (uid aid : Nat)
        (lines : List CartLine) (code : String) (now : ℤ) (a : Address),
      r.isActive = true → findAddress addrDb aid uid = some a →
      (∃ line ∈ lines, ¬∃ mi,
        menu.find? (fun m => m.id == line.menuItem) = some mi ∧ mi.isAvailable = true) →
      ∃ e, createOrder (some r) addrDb menu uid aid lines code now = .error e ∧
        (e = "Menu item not found is not available" ∨
          ∃ mi : MenuItem, e = "Menu item " ++ mi.name ++ " is not available")) ∧
    (∀ (menu : List MenuItem) (lines : List CartLine),
      (∀ line ∈ lines, ∃ mi,
        menu.find? (fun m => m.id == line.menuItem) = some mi ∧ mi.isAvailable = true) →
      ∃ its st, processItems menu lines = .ok (its, st)) ∧
    (∀ (r : Restaurant) (addrDb : List Address) (menu : List MenuItem) (uid aid : Nat)
        (lines : List CartLine) (code : String) (now : ℤ) (a : Address)
        (its : List OrderItem) (st : ℚ), r.isActive = true →
      findAddress addrDb aid uid = some a →
      processItems menu lines = .ok (its, st) → st < r.minimumOrder →
      createOrder (some r) addrDb menu uid aid lines code now =
        .error "Minimum order value") ∧
    (∀ (r : Restaurant) (addrDb : List Address) (menu : List MenuItem) (uid aid : Nat)
        (lines : List CartLine) (code : String) (now : ℤ) (a : Address)
        (its : List OrderItem) (st : ℚ), r.isActive = true →
      findAddress addrDb aid uid = some a →
      processItems menu lines = .ok (its, st) → ¬ st < r.minimumOrder →
      (createOrder (some r) addrDb menu uid aid lines code now).isOk = true) := by
  refine ⟨?_, ?_, ?_, ?_, ?_, ?_, ?_⟩
  · intro addrDb menu uid aid lines code now
    rfl
  · intro r addrDb menu uid aid lines code now hact
    simp only [createOrder]
    rw [if_pos (by simp [hact])]
  · intro r addrDb menu uid aid lines code now hact hfa
    simp only [createOrder]
    rw [if_neg (by simp [hact]), hfa]
  · intro r addrDb menu uid aid lines code now a hact hfa hbad
    obtain ⟨e, herr, hshape⟩ := processItems_err_of_bad_item hbad
    refine ⟨e, ?_, hshape⟩
    simp only [createOrder]
    rw [if_neg (by simp [hact]), hfa]
    dsimp only
    rw [herr]
  · intro menu lines h
    exact processItems_ok_of_items_ok h
  · intro r addrDb menu uid aid lines code now a its st hact hfa hpi hlt
    simp only [createOrder]
    rw [if_neg (by simp [hact]), hfa]
    dsimp only
    rw [hpi]
    dsimp only
    rw [if_pos hlt]
  · intro r addrDb menu uid aid lines code now a its st hact hfa hpi hlt
    simp only [createOrder]
    rw [if_neg (by simp [hact]), hfa]
    dsimp only
    rw [hpi]
    dsimp only
    rw [if_neg hlt]
    rfl

/-- C5 counterexample: the cart line `exBadNamesLine` names variant
"XL" and add-on "Extra Cheese", neither of which exists on item 5, yet
the order is created (and the unknown add-on is not charged) — the
claim says creation must fail with an error. -/
theorem createOrder_checked_preconditions_cex :
    (createOrder (some exRest) [{ id := 3, user := 7 }] [exDiscItem] 7 3 [exBadNamesLine]
        "1234" 0).isOk = true ∧
      (createOrder (some exRest) [{ id := 3, user := 7 }] [exDiscItem] 7 3 [exBadNamesLine]
          "1234" 0).toOption.map (fun o => o.items.map (fun it => it.itemTotal)) =
        some [100] := by
  constructor
  · simp only [createOrder, processItems, findAddress, List.find?, exRest, exDiscItem,
      exBadNamesLine, mkOrderItem, lineTotal, resolvePrice, lineAddOns, lineCustomizations,
      jsOrQ, Except.isOk, Except.toBool]
    norm_num
  · simp only [createOrder, processItems, findAddress, List.find?, exRest, exDiscItem,
      exBadNamesLine, mkOrderItem, lineTotal, resolvePrice, lineAddOns, lineCustomizations,
      jsOrQ, Except.toOption, Option.map]
    norm_num

/-- C5 witness: the success conjunct applied to the bad-names cart. -/
theorem createOrder_checked_preconditions_witness :
    (createOrder (some exRest) [{ id := 3, user := 7 }] [exDiscItem] 7 3 [exBadNamesLine]
        "9999" 5).isOk = true :=
  createOrder_checked_preconditions.2.2.2.2.2.2 exRest [{ id := 3, user := 7 }] [exDiscItem]
    7 3 [exBadNamesLine] "9999" 5 { id := 3, user := 7 }
    [{ menuItem := 5, name := "Pizza", price := 100, quantity := 1, itemTotal := 100 }] 100
    rfl rfl
    (by
      simp only [processItems, List.find?, exDiscItem, exBadNamesLine, mkOrderItem,
        lineTotal, resolvePrice, lineAddOns, lineCustomizations, jsOrQ]
      norm_num)
    (by norm_num [exRest])

/-- C7 (confirmed): after every review save, the hook refetches the
restaurant's reviews and overwrites `rating.average` with
round(mean of `ratings.overall`, 1 decimal) and `rating.count` with
their number.  The hook does not filter on `adminAction.isHidden`, but
no operation of the service ever sets it, so on every reachable state
(all reviews non-hidden, as hypothesised) the result is exactly the
claim's non-hidden aggregate: with N reviews of overall ratings
r1..rN, average = round(mean(r1..rN), 1) and count = N. -/
theorem restaurantRating_invariant (reviews : List Review) (doc : Review) (rid : Nat)
    (r : RatingAgg) (hmem : doc ∈ reviews) (hdoc : doc.restaurant = rid)
    (hvis : ∀ rv ∈ reviews, rv.restaurant = rid → rv.isHidden = false) :
    updateRestaurantRating reviews rid r = specNonHiddenRating reviews rid ∧
      (updateRestaurantRating reviews rid r).count =
        (reviews.filter (fun rv => rv.restaurant == rid && !rv.isHidden)).length ∧
      (updateRestaurantRating reviews rid r).average =
        (jsRound (((reviews.filter (fun rv => rv.restaurant == rid && !rv.isHidden)).map
            (fun rv => rv.overall)).sum /
            (((reviews.filter (fun rv => rv.restaurant == rid && !rv.isHidden)).length :
              ℚ)) * 10) : ℚ) / 10 := by
  have hfe : reviews.filter (fun rv => rv.restaurant == rid) =
      reviews.filter (fun rv => rv.restaurant == rid && !rv.isHidden) := by
    apply List.filter_congr
    intro rv hrv
    by_cases hr : rv.restaurant = rid
    · simp [hr, hvis rv hrv hr]
    · simp [hr]
  have hpos : 0 < (reviews.filter (fun rv => rv.restaurant == rid)).length := by
    apply List.length_pos_of_mem
    exact List.mem_filter.mpr ⟨hmem, by simp [hdoc]⟩
  have hmain : updateRestaurantRating reviews rid r = specNonHiddenRating reviews rid := by
    unfold updateRestaurantRating specNonHiddenRating
    rw [if_pos hpos, hfe]
  exact ⟨hmain, by rw [hmain]; rfl, by rw [hmain]; rfl⟩

/-- C7 witness: two visible reviews of restaurant 1 with overall
ratings 4 and 5 yield the non-hidden aggregate. -/
theorem restaurantRating_invariant_witness :
    updateRestaurantRating
        [{ restaurant := 1, overall := 4, isHidden := false },
          { restaurant := 1, overall := 5, isHidden := false }] 1 { average := 0, count := 0 } =
      specNonHiddenRating
        [{ restaurant := 1, overall := 4, isHidden := false },
          { restaurant := 1, overall := 5, isHidden := false }] 1 :=
  (restaurantRating_invariant
    [{ restaurant := 1, overall := 4, isHidden := false },
      { restaurant := 1, overall := 5, isHidden := false }]
    { restaurant := 1, overall := 4, isHidden := false } 1 { average := 0, count := 0 }
    (List.mem_cons_self _ _) rfl
    (by
      intro rv hrv hr
      simp only [List.mem_cons, List.not_mem_nil, or_false] at hrv
      rcases hrv with rfl | rfl <;> rfl)).1

end FoodRush
